import Mathlib

/-!
Verification of the result library (src/src/index.ts).

A shallow embedding of the Result library: the two-variant value type
`Ok`/`Err`, its transformation methods (`map`, `mapErr`, `flatMap`),
termination operations (`unwrap`, `isOk`, `isErr`, ...), the collection
combinators (`all`, `any`, `partition`) and the adapters (`trySync`,
`fromNullable`).

JavaScript runtime values that the code inspects dynamically
(`instanceof Error`, `String(e)`, `value != null`) are modelled by the
inductive type `JSValue`; payloads the code never inspects stay generic.
Object identity (the code sometimes returns `self`, the receiver, instead
of allocating) is modelled separately by `RefResult`, a value paired with
an allocation address threaded through an allocation counter.
-/

/-- A JavaScript runtime value, as far as the library inspects one:
`null`, `undefined`, booleans, (integer) numbers, strings, and `Error`
objects carrying a message. -/
inductive JSValue where
  | nullV
  | undefinedV
  | boolean (b : Bool)
  | number (n : Int)
  | strV (s : String)
  | errorObj (message : String)
deriving DecidableEq, Repr

/-- `e instanceof Error` for a `JSValue`. -/
def JSValue.isErrorInstance : JSValue → Bool
  | .errorObj _ => true
  | _ => false

/-- `String(e)`: JavaScript string coercion of a `JSValue`
(`String(new Error(m))` is `"Error: " ++ m`). -/
def jsToString : JSValue → String
  | .nullV => "null"
  | .undefinedV => "undefined"
  | .boolean b => if b then "true" else "false"
  | .number n => toString n
  | .strV s => s
  | .errorObj m => "Error: " ++ m

/-- The value-level content of a `Result<T, E>`: a tagged union with
exactly the two variants `Ok(value)` (built by `createOk`) and
`Err(error)` (built by `createErr`). -/
inductive ResultV (α : Type u) (ε : Type v) where
  | ok (value : α)
  | err (error : ε)
deriving DecidableEq, Repr

namespace ResultV

/-- The `ok` discriminant field: `true` on the object built by `createOk`,
`false` on the object built by `createErr`. -/
def okField : ResultV α ε → Bool
  | .ok _ => true
  | .err _ => false

/-- The `isOk()` method: `createOk`'s returns `true`, `createErr`'s
returns `false` (index.ts lines 80-82 and 128-130). -/
def isOkM : ResultV α ε → Bool
  | .ok _ => true
  | .err _ => false

/-- The `isErr()` method: `createOk`'s returns `false`, `createErr`'s
returns `true` (index.ts lines 83-85 and 131-133). -/
def isErrM : ResultV α ε → Bool
  | .ok _ => false
  | .err _ => true

/-- The `map` method, value level: `createOk`'s returns
`createOk(fn(self.value))`; `createErr`'s returns `self` unchanged
(index.ts lines 87-89 and 135-137). -/
def map (r : ResultV α ε) (fn : α → β) : ResultV β ε :=
  match r with
  | .ok v => .ok (fn v)
  | .err e => .err e

/-- The `mapErr` method, value level: `createOk`'s returns `self`
unchanged; `createErr`'s returns `createErr(fn(self.error))`
(index.ts lines 90-92 and 138-140). -/
def mapErr (r : ResultV α ε) (fn : ε → φ) : ResultV α φ :=
  match r with
  | .ok v => .ok v
  | .err e => .err (fn e)

/-- The `flatMap` method, value level: `createOk`'s returns
`fn(self.value)` directly; `createErr`'s returns `self` unchanged
(index.ts lines 94-96 and 142-144). -/
def flatMap (r : ResultV α ε) (fn : α → ResultV β ε) : ResultV β ε :=
  match r with
  | .ok v => fn v
  | .err e => .err e

end ResultV

/-- Free-standing type guard `isOk(result)`: returns `result.ok`
(index.ts lines 188-190). -/
def isOkGuard (result : ResultV α ε) : Bool :=
  result.okField

/-- Free-standing type guard `isErr(result)`: returns `!result.ok`
(index.ts lines 193-195). -/
def isErrGuard (result : ResultV α ε) : Bool :=
  !result.okField

/-- The `unwrap` method. On `createOk` it returns `self.value`
(index.ts lines 102-104). On `createErr` it throws
`self.error instanceof Error ? self.error : new Error(String(self.error))`
(index.ts lines 150-154); the thrown value appears on the `Except.error`
side. -/
def unwrap (r : ResultV α JSValue) : Except JSValue α :=
  match r with
  | .ok v => .ok v
  | .err e =>
      .error (if e.isErrorInstance then e else .errorObj (jsToString e))

/-- `trySync`'s zero-argument computation: a JavaScript thunk either
returns a value normally or throws a `JSValue`. -/
inductive Comp (α : Type u) where
  | ret (value : α)
  | throws (e : JSValue)

/-- `trySync(fn)` (index.ts lines 203-209): `ok(fn())` on normal return;
on a throw of `e`, `err(e instanceof Error ? e : new Error(String(e)))`. -/
def trySync (fn : Comp α) : ResultV α JSValue :=
  match fn with
  | .ret v => .ok v
  | .throws e =>
      .err (if e.isErrorInstance then e else .errorObj (jsToString e))

/-- The loop body of `all` (index.ts lines 236-240): walk the array,
returning the first `Err` as is, pushing each `Ok` payload onto
`values`. -/
def allGo (values : List α) : List (ResultV α ε) → ResultV (List α) ε
  | [] => .ok values
  | .err e :: _ => .err e
  | .ok v :: rest => allGo (values ++ [v]) rest

/-- `all(results)` (index.ts lines 233-242): starts the scan with an
empty `values` accumulator. -/
def all (results : List (ResultV α ε)) : ResultV (List α) ε :=
  allGo [] results

/-- The loop of `any` (index.ts lines 272-275): return the first element
whose `isOk()` holds; if the loop exhausts, return
`results[results.length - 1]`, here passed in as `last`. -/
def anyGo (last : ResultV α ε) : List (ResultV α ε) → ResultV α ε
  | [] => last
  | r :: rest => if r.isOkM then r else anyGo last rest

/-- `results[results.length - 1]` of the non-empty array `r :: rest`. -/
def lastElem (r : ResultV α ε) : List (ResultV α ε) → ResultV α ε
  | [] => r
  | r2 :: rest => lastElem r2 rest

/-- `any(results)` (index.ts lines 266-276): on an empty array returns
`err(new Error("any() called with empty array"))`; otherwise runs the
scan with `results[results.length - 1]` as the fallback. -/
def any (results : List (ResultV α JSValue)) : ResultV α JSValue :=
  match results with
  | [] => .err (.errorObj "any() called with empty array")
  | r :: rest => anyGo (lastElem r rest) (r :: rest)

/-- `fromNullable(value, error)` (index.ts lines 284-289):
`value != null ? ok(value) : err(error)`; the loose `!= null` is false
exactly on `null` and `undefined`. -/
def fromNullable (value : JSValue) (error : ε) : ResultV JSValue ε :=
  if value = .nullV ∨ value = .undefinedV then .err error else .ok value

/-- The loop body of `partition`, a single left-to-right scan pushing
each `Ok` payload onto `succ` and each `Err` payload onto `fail`. -/
def partitionGo (succ : List α) (fail : List ε) :
    List (ResultV α ε) → List α × List ε
  | [] => (succ, fail)
  | .ok v :: rest => partitionGo (succ ++ [v]) fail rest
  | .err e :: rest => partitionGo succ (fail ++ [e]) rest

/-- Modelled from the spec: `partition` is absent from src/src/index.ts —
only the embedded test file imports and exercises it. Per the spec,
`partition(results)` "produces two ordered sequences — successes
(order-preserved) and failures (order-preserved) — by a single
left-to-right scan; never fails; on empty input returns two empty
sequences". -/
def partitionR (results : List (ResultV α ε)) : List α × List ε :=
  partitionGo [] [] results

/-- The success payloads of a sequence, in input order (spec-side
characterisation used to state order preservation). -/
def okPayloads (results : List (ResultV α ε)) : List α :=
  results.filterMap fun r =>
    match r with
    | .ok v => some v
    | .err _ => none

/-- The failure payloads of a sequence, in input order (spec-side
characterisation used to state order preservation). -/
def errPayloads (results : List (ResultV α ε)) : List ε :=
  results.filterMap fun r =>
    match r with
    | .ok _ => none
    | .err e => some e

/-- A Result object together with the address at which it was allocated.
Both `createOk` and `createErr` build a fresh object literal, so each call
consumes a fresh address from an allocation counter; an operation that
returns `self` keeps the receiver's address. -/
structure RefResult (α : Type u) (ε : Type v) where
  addr : Nat
  val : ResultV α ε
deriving DecidableEq, Repr

/-- `createOk(value)` (index.ts lines 75-121): allocates a fresh `Ok`
object. -/
def createOk (value : α) : Nat → RefResult α ε × Nat :=
  fun n => (⟨n, .ok value⟩, n + 1)

/-- `createErr(error)` (index.ts lines 123-171): allocates a fresh `Err`
object. -/
def createErr (error : ε) : Nat → RefResult α ε × Nat :=
  fun n => (⟨n, .err error⟩, n + 1)

/-- The `map` method at the object level: `createOk`'s allocates
`createOk(fn(self.value))`; `createErr`'s returns `self`, the receiver
itself, with no allocation (index.ts lines 87-89 and 135-137). -/
def mapRef (self : RefResult α ε) (fn : α → β) : Nat → RefResult β ε × Nat :=
  fun n =>
    match self.val with
    | .ok v => createOk (fn v) n
    | .err e => (⟨self.addr, .err e⟩, n)

/-- The `mapErr` method at the object level: `createOk`'s returns `self`,
the receiver itself, with no allocation; `createErr`'s allocates
`createErr(fn(self.error))` (index.ts lines 90-92 and 138-140). -/
def mapErrRef (self : RefResult α ε) (fn : ε → φ) :
    Nat → RefResult α φ × Nat :=
  fun n =>
    match self.val with
    | .ok v => (⟨self.addr, .ok v⟩, n)
    | .err e => createErr (fn e) n

/-- The `flatMap` method at the object level: `createOk`'s returns
`fn(self.value)` (whatever object `fn` yields); `createErr`'s returns
`self`, the receiver itself (index.ts lines 94-96 and 142-144). -/
def flatMapRef (self : RefResult α ε) (fn : α → Nat → RefResult β ε × Nat) :
    Nat → RefResult β ε × Nat :=
  fun n =>
    match self.val with
    | .ok v => fn v n
    | .err e => (⟨self.addr, .err e⟩, n)

/-- `allGo` consumes a block of `Ok` elements by pushing their payloads
onto the accumulator. -/
theorem allGo_append_oks (vs : List α) (acc : List α)
    (rest : List (ResultV α ε)) :
    allGo acc (vs.map ResultV.ok ++ rest) = allGo (acc ++ vs) rest := by
  induction vs generalizing acc with
  | nil => simp
  | cons v vt ih =>
      simp only [List.map_cons, List.cons_append, allGo, List.append_eq,
        ih, List.append_assoc, List.singleton_append, List.nil_append]

/-- `anyGo` skips over a block of `Err` elements. -/
theorem anyGo_skip_errs (es : List JSValue) (last : ResultV α JSValue)
    (rest : List (ResultV α JSValue)) :
    anyGo last (es.map ResultV.err ++ rest) = anyGo last rest := by
  induction es with
  | nil => simp
  | cons e et ih =>
      simp only [List.map_cons, List.cons_append, anyGo, ResultV.isOkM,
        Bool.false_eq_true, if_false, List.append_eq, ih]

/-- `partitionGo` appends the ordered payloads of the remaining input to
its two accumulators. -/
theorem partitionGo_spec (rs : List (ResultV α ε)) :
    ∀ succ fail, partitionGo succ fail rs
      = (succ ++ okPayloads rs, fail ++ errPayloads rs) := by
  induction rs with
  | nil => intro succ fail; simp [partitionGo, okPayloads, errPayloads]
  | cons r rest ih =>
      intro succ fail
      cases r with
      | ok v =>
          simp only [partitionGo, ih, okPayloads, errPayloads,
            List.filterMap_cons]
          simp
      | err e =>
          simp only [partitionGo, ih, okPayloads, errPayloads,
            List.filterMap_cons]
          simp

/-- `lastElem` picks the final element of the non-empty list. -/
theorem lastElem_append_last (l : List (ResultV α ε)) (x : ResultV α ε) :
    ∀ r, lastElem r (l ++ [x]) = x := by
  induction l with
  | nil => intro r; rfl
  | cons r2 rest ih => intro r; simpa [lastElem] using ih r2

/-- C1: `partition` scans left to right and returns the pair of the
success payloads in input order and the failure payloads in input order;
it never fails (it is a total function) and on the empty input it returns
two empty sequences. The `partition` implementation is modelled from the
spec because src/src/index.ts does not define it. -/
theorem partition_ordered_payloads (α ε : Type) :
    (partitionR ([] : List (ResultV α ε)) = ([], [])) ∧
    (∀ rs : List (ResultV α ε), partitionR rs = (okPayloads rs, errPayloads rs)) ∧
    (partitionR [ResultV.ok 1, ResultV.err "a", ResultV.ok 2,
        ResultV.err "b"] = ([1, 2], ["a", "b"])) := by
  refine ⟨rfl, ?_, by decide⟩
  intro rs
  simpa using partitionGo_spec rs [] []

/-- C2: `unwrap(success(v))` returns `v`; `unwrap(failure(e))` fails,
throwing the failure's original error when the payload is already an
`Error` instance and otherwise a fresh `Error` wrapping the payload's
textual representation. -/
theorem unwrap_ok_err_behavior (α : Type) :
    (∀ v : α, unwrap (ResultV.ok v) = Except.ok v) ∧
    (∀ m : String,
      unwrap (ResultV.err (α := α) (JSValue.errorObj m))
        = Except.error (JSValue.errorObj m)) ∧
    (∀ e : JSValue, e.isErrorInstance = false →
      unwrap (ResultV.err (α := α) e)
        = Except.error (JSValue.errorObj (jsToString e))) := by
  refine ⟨fun v => rfl, fun m => rfl, fun e he => ?_⟩
  simp [unwrap, he]

/-- Witness for C2 at concrete inputs: value 42, an `Error` payload, and
a plain-string payload. -/
theorem unwrap_ok_err_behavior_witness :
    unwrap (ResultV.ok (42 : Nat)) = Except.ok 42 ∧
    unwrap (ResultV.err (α := Nat) (JSValue.errorObj "boom"))
      = Except.error (JSValue.errorObj "boom") ∧
    unwrap (ResultV.err (α := Nat) (JSValue.strV "oops"))
      = Except.error (JSValue.errorObj "oops") :=
  ⟨(unwrap_ok_err_behavior Nat).1 42,
   (unwrap_ok_err_behavior Nat).2.1 "boom",
   (unwrap_ok_err_behavior Nat).2.2 (JSValue.strV "oops") rfl⟩

/-- C3 counterexample: `map` applied to a failure returns the receiver
itself — the very same object, same allocation address — and so does
`mapErr` applied to a success; neither is "a new instance distinct from
the receiver". -/
theorem map_on_err_returns_receiver :
    (mapRef (⟨0, ResultV.err "boom"⟩ : RefResult Nat String)
        (fun n => n + 1) 1).1 = ⟨0, ResultV.err "boom"⟩ ∧
    (mapErrRef (⟨0, ResultV.ok 5⟩ : RefResult Nat String)
        (fun s => s ++ "!") 1).1 = ⟨0, ResultV.ok 5⟩ := by
  exact ⟨rfl, rfl⟩

/-- C3 as amended: no operation mutates the receiver; `map` on a success
and `mapErr` on a failure allocate a fresh instance distinct from the
receiver; but `map` and `flatMap` applied to a failure, and `mapErr`
applied to a success, return the receiver itself unchanged rather than a
new instance. (`h` is the allocator invariant: every live object's
address is below the allocation counter.) -/
theorem transform_allocation_behavior (α β ε φ : Type)
    (r : RefResult α ε) (f : α → β) (g : ε → φ)
    (k : α → Nat → RefResult β ε × Nat) (n : Nat) (h : r.addr < n) :
    (∀ v, r.val = .ok v →
      ((mapRef r f n).1.addr ≠ r.addr ∧
        (mapRef r f n).1.val = .ok (f v)) ∧
      (mapErrRef r g n).1 = ⟨r.addr, .ok v⟩) ∧
    (∀ e, r.val = .err e →
      ((mapErrRef r g n).1.addr ≠ r.addr ∧
        (mapErrRef r g n).1.val = .err (g e)) ∧
      (mapRef r f n).1 = ⟨r.addr, .err e⟩ ∧
      (flatMapRef r k n).1 = ⟨r.addr, .err e⟩) := by
  constructor
  · intro v hv
    refine ⟨⟨?_, ?_⟩, ?_⟩ <;>
      simp [mapRef, mapErrRef, createOk, hv, Nat.ne_of_gt h]
  · intro e he
    refine ⟨⟨?_, ?_⟩, ?_, ?_⟩ <;>
      simp [mapRef, mapErrRef, flatMapRef, createErr, he, Nat.ne_of_gt h]

/-- Witness for C3's amended theorem: a success object at address 0 with
the counter at 1. -/
theorem transform_allocation_behavior_witness :
    ((mapRef (⟨0, ResultV.ok 3⟩ : RefResult Nat String)
        (fun n => n + 1) 1).1.addr ≠ 0 ∧
      (mapRef (⟨0, ResultV.ok 3⟩ : RefResult Nat String)
        (fun n => n + 1) 1).1.val = ResultV.ok 4) ∧
    (mapErrRef (⟨0, ResultV.ok 3⟩ : RefResult Nat String)
        (fun s => s) 1).1 = ⟨0, ResultV.ok 3⟩ :=
  (transform_allocation_behavior Nat Nat String String ⟨0, ResultV.ok 3⟩
      (fun n => n + 1) (fun s => s) (fun a m => (⟨m, ResultV.ok a⟩, m + 1))
      1 (by decide)).1 3 rfl

/-- C4: `flatMap` is associative: for every Result `r` and
Result-returning functions `f` and `g`,
`flatMap(flatMap(r, f), g) = flatMap(r, x => flatMap(f(x), g))`. -/
theorem flatMap_assoc (r : ResultV α ε) (f : α → ResultV β ε)
    (g : β → ResultV γ ε) :
    (r.flatMap f).flatMap g = r.flatMap fun x => (f x).flatMap g := by
  cases r <;> rfl

/-- C5: the functor composition law: for every Result `r` and functions
`f` and `g`, `map(map(r, f), g) = map(r, compose(g, f))`. -/
theorem map_functor_comp (r : ResultV α ε) (f : α → β) (g : β → γ) :
    (r.map f).map g = r.map (g ∘ f) := by
  cases r <;> rfl

/-- C6: `all` returns `Ok []` on the empty input; on an input consisting
solely of successes it returns `Ok` of the payloads in input order; and
whenever the input is a block of successes followed by the first `Err`,
it returns that exact `Err`, whatever follows it (short-circuit: the
result does not depend on `rest`). -/
theorem all_scan_behavior (α ε : Type) :
    (all ([] : List (ResultV α ε)) = ResultV.ok []) ∧
    (∀ vs : List α,
      all (vs.map ResultV.ok : List (ResultV α ε)) = ResultV.ok vs) ∧
    (∀ (vs : List α) (e : ε) (rest : List (ResultV α ε)),
      all (vs.map ResultV.ok ++ ResultV.err e :: rest) = ResultV.err e) := by
  refine ⟨rfl, fun vs => ?_, fun vs e rest => ?_⟩
  · have h := allGo_append_oks vs [] ([] : List (ResultV α ε))
    simpa [all, allGo] using h
  · have h := allGo_append_oks vs [] (ResultV.err e :: rest)
    simpa [all, allGo] using h

/-- C7: `any` synthesizes its own `Err` (message
"any() called with empty array") on the empty input rather than raising;
it returns the first `Ok` encountered scanning left to right; and when
every element is an `Err` it returns the last element's `Err`. -/
theorem any_scan_behavior (α : Type) :
    (any ([] : List (ResultV α JSValue))
      = ResultV.err (JSValue.errorObj "any() called with empty array")) ∧
    (∀ (es : List JSValue) (v : α) (rest : List (ResultV α JSValue)),
      any (es.map ResultV.err ++ ResultV.ok v :: rest) = ResultV.ok v) ∧
    (∀ (es : List JSValue) (e : JSValue),
      any ((es.map ResultV.err ++ [ResultV.err e]) : List (ResultV α JSValue))
        = ResultV.err e) := by
  refine ⟨rfl, fun es v rest => ?_, fun es e => ?_⟩
  · cases es with
    | nil => simp [any, anyGo, ResultV.isOkM]
    | cons e0 et =>
        simp only [List.map_cons, List.cons_append, any, anyGo,
          ResultV.isOkM, Bool.false_eq_true, if_false, anyGo_skip_errs]
        simp [anyGo, ResultV.isOkM]
  · cases es with
    | nil => rfl
    | cons e0 et =>
        simp only [List.map_cons, List.cons_append, any, anyGo,
          ResultV.isOkM, Bool.false_eq_true, if_false, anyGo_skip_errs,
          lastElem_append_last]

/-- C8: `trySync` yields `ok(x)` for a computation returning `x`; for a
computation raising `e` it yields `err` of the normalized fault — `e`
itself when `e` is already an `Error` instance, otherwise an `Error`
wrapping `e`'s textual representation — and it always yields a Result
(never re-raises: the `throws` case lands in `ResultV.err`, not an
exception). -/
theorem trySync_adapter_behavior (α : Type) :
    (∀ v : α, trySync (Comp.ret v) = ResultV.ok v) ∧
    (∀ m : String,
      trySync (Comp.throws (α := α) (JSValue.errorObj m))
        = ResultV.err (JSValue.errorObj m)) ∧
    (∀ e : JSValue, e.isErrorInstance = false →
      trySync (Comp.throws (α := α) e)
        = ResultV.err (JSValue.errorObj (jsToString e))) := by
  refine ⟨fun v => rfl, fun m => rfl, fun e he => ?_⟩
  simp [trySync, he]

/-- Witness for C8 at concrete inputs: a computation returning 7, one
throwing an `Error`, and one throwing a plain string. -/
theorem trySync_adapter_behavior_witness :
    trySync (Comp.ret (7 : Nat)) = ResultV.ok 7 ∧
    trySync (Comp.throws (α := Nat) (JSValue.errorObj "bad"))
      = ResultV.err (JSValue.errorObj "bad") ∧
    trySync (Comp.throws (α := Nat) (JSValue.strV "string throw"))
      = ResultV.err (JSValue.errorObj "string throw") :=
  ⟨(trySync_adapter_behavior Nat).1 7,
   (trySync_adapter_behavior Nat).2.1 "bad",
   (trySync_adapter_behavior Nat).2.2 (JSValue.strV "string throw") rfl⟩

/-- C9: `fromNullable` returns `Ok value` whenever the value is neither
`null` nor `undefined` — in particular for the falsy-but-present values
`0`, `""` and `false` — and returns `Err` of the supplied error payload
on `null` and on `undefined`. -/
theorem fromNullable_presence (ε : Type) (e : ε) :
    (∀ v : JSValue, v ≠ .nullV → v ≠ .undefinedV →
      fromNullable v e = ResultV.ok v) ∧
    (fromNullable .nullV e = ResultV.err e) ∧
    (fromNullable .undefinedV e = ResultV.err e) ∧
    (fromNullable (.number 0) e = ResultV.ok (.number 0)) ∧
    (fromNullable (.strV "") e = ResultV.ok (.strV "")) ∧
    (fromNullable (.boolean false) e = ResultV.ok (.boolean false)) := by
  refine ⟨fun v h1 h2 => ?_, rfl, rfl, rfl, rfl, rfl⟩
  simp [fromNullable, h1, h2]

/-- Witness for C9 at a concrete error payload and the value 3. -/
theorem fromNullable_presence_witness :
    fromNullable (.number 3) "absent" = ResultV.ok (.number 3) ∧
    fromNullable .nullV "absent" = ResultV.err "absent" :=
  ⟨(fromNullable_presence String "absent").1 (.number 3)
      (by decide) (by decide),
   (fromNullable_presence String "absent").2.1⟩

/-- C10: for every Result, the `isOk()` method agrees with the `ok`
discriminant field, `isErr()` is its negation (exactly one of the two
holds), and the free-standing guards `isOk(r)` and `isErr(r)` agree with
the corresponding methods. -/
theorem isOk_isErr_consistency (α ε : Type) (r : ResultV α ε) :
    r.isOkM = r.okField ∧ r.isErrM = !r.isOkM ∧
    isOkGuard r = r.isOkM ∧ isErrGuard r = r.isErrM := by
  cases r <;>
    simp [ResultV.isOkM, ResultV.isErrM, ResultV.okField, isOkGuard,
      isErrGuard]
